import Mathlib

/-!
# Verification of the resume-processing pipeline core

A shallow embedding, in Lean 4, of the core services of the
`-Refolio-Made-to-move` backend:

* `apps/portfolio/services/error_recovery_service.py`
  (error classification, retry with backoff, fallback content),
* `apps/portfolio/services/input_sanitization_service.py`
  (rate limiter, filename/options sanitization, content validation with
  duplicate detection),
* `apps/portfolio/services/file_validation_service.py`
  (upload validation),
* `apps/portfolio/services/pipeline_service.py`
  (the `process(...)` orchestrator and component selection),
* the `required_props` table of `apps/portfolio/models.py`.

Conventions of the embedding:

* Python `float` time values and delays are modelled as `ℚ`;
  byte strings as `List Nat`; Python `str` as Lean `String`, except in
  `sanitize_filename`, where the character-level rewriting is modelled on
  `List Char`.
* Python dictionaries holding heterogeneous JSON-like data are modelled by
  the inductive type `PyVal` and association lists (`PyDict`), so that
  `dict.get(key, default)` keeps its real semantics (a key can be absent).
* Mutable service state (the rate limiter's timestamp/block maps, the
  duplicate-submission history) is passed explicitly: each stateful
  operation takes the state and returns the updated state.
* External collaborators (PIL image parsing, Google Vision OCR, the
  analysis engine, SHA-256) are parameters of the functions that call
  them; everything else is translated from the Python source.
* Exceptions are modelled by `Except PyError`; a Python function that
  cannot raise is a total Lean function.
-/

/-! ## Python-style heterogeneous values and dictionaries -/

/-- A JSON-like Python value, as stored in the profile / options / props
dictionaries of the pipeline. -/
inductive PyVal where
  | str (s : String)
  | int (n : Int)
  | rat (q : ℚ)
  | bool (b : Bool)
  | list (xs : List PyVal)
  | dict (kvs : List (String × PyVal))

/-- A Python `dict` with string keys, as an association list (first
binding wins, as with repeated inserts it cannot arise here). -/
abbrev PyDict := List (String × PyVal)

/-- `d.get(k, default)`. -/
def pyGetD (d : PyDict) (k : String) (default : PyVal) : PyVal :=
  match d.find? (fun kv => kv.1 == k) with
  | some kv => kv.2
  | none => default

/-- Python `value == "literal"` where `value` may be any object: strings
compare by contents, any non-string compares unequal to a `str`. -/
def pyEqStr (v : PyVal) (s : String) : Bool :=
  match v with
  | .str t => t == s
  | _ => false

/-- Abstraction of Python `str(value)` as used inside f-strings of
component builders. Only the `str` case is ever observed by the verified
claims; the rendering of non-string objects is not modelled precisely. -/
def pyToString (v : PyVal) : String :=
  match v with
  | .str s => s
  | .int n => toString n
  | .bool b => if b then "True" else "False"
  | _ => "object"

/-! ## Exceptions and the error classifier (`error_recovery_service.py`) -/

/-- The Python exception classes relevant to the services. -/
inductive ExcClass where
  | connectionError
  | connectionResetError
  | connectionRefusedError
  | brokenPipeError
  | timeoutError
  | asyncioTimeoutError
  | valueError
  | typeError
  | runtimeError
  deriving DecidableEq, Repr

/-- Python `isinstance(e, c)` on the classes above. `ConnectionResetError`,
`ConnectionRefusedError` and `BrokenPipeError` are subclasses of
`ConnectionError`; `asyncio.TimeoutError` is an alias of `TimeoutError`
(Python >= 3.11). -/
def isInstance (k c : ExcClass) : Bool :=
  k == c
    || (c == .connectionError
        && (k == .connectionResetError || k == .connectionRefusedError
            || k == .brokenPipeError))
    || (c == .timeoutError && k == .asyncioTimeoutError)
    || (c == .asyncioTimeoutError && k == .timeoutError)

/-- A raised Python exception: its class and its message (`str(e)`). -/
structure PyError where
  kind : ExcClass
  msg : String
  deriving DecidableEq, Repr

/-- `ErrorCategory` enum. -/
inductive ErrorCategory where
  | transient
  | permanent
  | rate_limited
  | unknown
  deriving DecidableEq, Repr

/-- `RetryStrategy` enum. -/
inductive RetryStrategy where
  | fixed
  | exponential
  | jittered
  deriving DecidableEq, Repr

/-- `ErrorClassifier.TRANSIENT_EXCEPTIONS`. -/
def TRANSIENT_EXCEPTIONS : List ExcClass :=
  [.connectionError, .connectionResetError, .connectionRefusedError,
   .timeoutError, .asyncioTimeoutError, .brokenPipeError]

/-- `ErrorClassifier.TRANSIENT_MESSAGES`. -/
def TRANSIENT_MESSAGES : List String :=
  ["connection reset", "connection refused", "timeout",
   "temporarily unavailable", "service unavailable",
   "too many connections", "network unreachable", "host unreachable"]

/-- `ErrorClassifier.RATE_LIMIT_MESSAGES`. -/
def RATE_LIMIT_MESSAGES : List String :=
  ["rate limit", "too many requests", "quota exceeded", "429", "throttl"]

/-- Substring test `pattern in text` on lower-cased characters. -/
def containsPattern (text : List Char) (pattern : String) : Bool :=
  decide (pattern.toList <:+: text)

/-- `ErrorClassifier.classify`: exception type first, then rate-limit
message patterns, then transient message patterns, else unknown. -/
def classify (e : PyError) : ErrorCategory :=
  if TRANSIENT_EXCEPTIONS.any (fun c => isInstance e.kind c) then
    .transient
  else
    let m := e.msg.toList.map Char.toLower
    if RATE_LIMIT_MESSAGES.any (fun p => containsPattern m p) then
      .rate_limited
    else if TRANSIENT_MESSAGES.any (fun p => containsPattern m p) then
      .transient
    else
      .unknown

/-! ## Retry machinery (`RetryHandler`) -/

/-- `RetryConfig` with its Python defaults. -/
structure RetryConfig where
  max_retries : Nat := 3
  base_delay_seconds : ℚ := 1
  max_delay_seconds : ℚ := 30
  strategy : RetryStrategy := .exponential
  jitter_factor : ℚ := 1/10
  retryable_exceptions : List ExcClass :=
    [.connectionError, .timeoutError, .asyncioTimeoutError]

/-- `RetryResult` (the `value` of a failed run is `None`). -/
structure RetryResult (α : Type) where
  success : Bool
  value : Option α := none
  attempts : Nat := 0
  total_delay_seconds : ℚ := 0
  last_error : Option PyError := none
  error_category : ErrorCategory := .unknown

/-- `FallbackConfig`. -/
structure FallbackConfig (α : Type) where
  enable_fallback : Bool := true
  fallback_value : Option α := none
  fallback_factory : Option (Unit → α) := none
  log_fallback : Bool := true

/-- `RetryHandler.calculate_delay` at a given attempt; `u` is the value
drawn by `random.random()` for the jittered strategy (unused otherwise). -/
def calculate_delay (cfg : RetryConfig) (attempt : Nat) (u : ℚ) : ℚ :=
  let delay :=
    match cfg.strategy with
    | .fixed => cfg.base_delay_seconds
    | .exponential => cfg.base_delay_seconds * 2 ^ attempt
    | .jittered =>
      let base_delay := cfg.base_delay_seconds * 2 ^ attempt
      base_delay + base_delay * cfg.jitter_factor * u
  min delay cfg.max_delay_seconds

/-- The retryable-error test of `RetryHandler.should_retry` (everything
after the attempt-count guard): explicit allowlist by `isinstance`, or a
`Transient`/`RateLimited` classification. -/
def retryable_error (cfg : RetryConfig) (e : PyError) : Bool :=
  cfg.retryable_exceptions.any (fun c => isInstance e.kind c)
    || classify e == .transient || classify e == .rate_limited

/-- `RetryHandler.should_retry`. -/
def should_retry (cfg : RetryConfig) (e : PyError) (attempt : Nat) : Bool :=
  if cfg.max_retries ≤ attempt then false
  else retryable_error cfg e

/-- The `while True` loop of `execute_with_retry` / `execute_sync_with_retry`.
`op n` is the outcome of the `n`-th invocation of the wrapped operation
(0-indexed), `u n` the jitter draw used after attempt `n`. The `fuel`
parameter only bounds the recursion structurally; the loop is always
entered with `fuel = max_retries + 1 - attempt`, which `should_retry`
(false at `attempt ≥ max_retries`) can never exhaust, so the fuel-less
Python loop and this function agree on every reachable input. -/
def retry_loop {α : Type} (cfg : RetryConfig) (op : Nat → Except PyError α)
    (u : Nat → ℚ) : (fuel attempt : Nat) → (total_delay : ℚ) → RetryResult α
  | fuel, attempt, total_delay =>
    match op attempt with
    | .ok v =>
      { success := true, value := some v, attempts := attempt + 1,
        total_delay_seconds := total_delay }
    | .error e =>
      if should_retry cfg e attempt then
        match fuel with
        | f + 1 =>
          retry_loop cfg op u f (attempt + 1)
            (total_delay + calculate_delay cfg attempt (u attempt))
        | 0 =>
          { success := false, attempts := attempt + 1,
            total_delay_seconds := total_delay, last_error := some e,
            error_category := classify e }
      else
        { success := false, attempts := attempt + 1,
          total_delay_seconds := total_delay, last_error := some e,
          error_category := classify e }

/-- `RetryHandler.execute_with_retry` (the sync variant
`execute_sync_with_retry` is line-for-line identical apart from the kind
of sleep): the retry loop, then the fallback clause. -/
def execute_with_retry {α : Type} (cfg : RetryConfig)
    (op : Nat → Except PyError α) (u : Nat → ℚ)
    (fallback : Option (FallbackConfig α)) : RetryResult α :=
  let core := retry_loop cfg op u (cfg.max_retries + 1) 0 0
  if core.success then core
  else
    match fallback with
    | some fb =>
      if fb.enable_fallback then
        { success := true,
          value := match fb.fallback_factory with
            | some f => some (f ())
            | none => fb.fallback_value,
          attempts := core.attempts,
          total_delay_seconds := core.total_delay_seconds,
          last_error := core.last_error,
          error_category := core.error_category }
      else core
    | none => core

/-! ## Rate limiter (`input_sanitization_service.RateLimiter`) -/

/-- Pointwise update of a function-backed map (Python `d[k] = v`). -/
def updateFn {β : Type} (f : String → β) (k : String) (v : β) :
    String → β :=
  fun x => if x = k then v else f x

/-- The constructor parameters of `RateLimiter`. -/
structure RateLimiterConfig where
  max_requests : Nat := 10
  window_seconds : Nat := 60
  burst_limit : Nat := 5
  burst_window_seconds : Nat := 10

/-- The limiter's mutable state: per-identifier timestamp lists
(`_requests`, a `defaultdict(list)`) and the temporary-block map
(`_blocked_until`). -/
structure RateLimiterState where
  requests : String → List ℚ
  blocked_until : String → Option ℚ

/-- The empty initial state of a fresh `RateLimiter`. -/
def initialRateLimiterState : RateLimiterState :=
  { requests := fun _ => [], blocked_until := fun _ => none }

/-- `RateLimitResult`; `reset_time` is a Unix timestamp (the code's
`datetime.utcnow() + timedelta(...)`). -/
structure RateLimitResult where
  allowed : Bool
  remaining_requests : Int
  reset_time : ℚ
  retry_after_seconds : Int := 0

/-- The body of `RateLimiter.check` after the temporary-block test:
purge, burst test, main-window test, record. -/
def check_main (cfg : RateLimiterConfig) (st : RateLimiterState)
    (identifier : String) (now : ℚ) : RateLimitResult × RateLimiterState :=
  let purged := (st.requests identifier).filter
    (fun ts => decide (now - (cfg.window_seconds : ℚ) < ts))
  let st1 : RateLimiterState :=
    { st with requests := updateFn st.requests identifier purged }
  let current_count := purged.length
  let remaining : Int := max 0 ((cfg.max_requests : Int) - current_count)
  let reset_time := now + (cfg.window_seconds : ℚ)
  let burst_count := (purged.filter
    (fun ts => decide (now - (cfg.burst_window_seconds : ℚ) < ts))).length
  if cfg.burst_limit ≤ burst_count then
    let blocked := updateFn st1.blocked_until identifier (some (now + (cfg.burst_window_seconds : ℚ)))
    ({ allowed := false, remaining_requests := 0,
       reset_time := now + (cfg.burst_window_seconds : ℚ),
       retry_after_seconds := (cfg.burst_window_seconds : Int) },
     { st1 with blocked_until := blocked })
  else if cfg.max_requests ≤ current_count then
    let oldest := (purged.min?).getD now
    let retry_after : Int :=
      max 1 (⌊oldest + (cfg.window_seconds : ℚ) - now⌋ + 1)
    ({ allowed := false, remaining_requests := 0, reset_time := reset_time,
       retry_after_seconds := retry_after }, st1)
  else
    ({ allowed := true, remaining_requests := remaining - 1,
       reset_time := reset_time, retry_after_seconds := 0 },
     { st with requests := updateFn st.requests identifier (purged ++ [now]) })

/-- `RateLimiter.check`: temporary-block test first (an expired block is
deleted), then `check_main`. -/
def rate_limiter_check (cfg : RateLimiterConfig) (st : RateLimiterState)
    (identifier : String) (now : ℚ) : RateLimitResult × RateLimiterState :=
  match st.blocked_until identifier with
  | some b =>
    if now < b then
      let retry_after : Int := ⌊b - now⌋ + 1
      ({ allowed := false, remaining_requests := 0,
         reset_time := now + (retry_after : ℚ),
         retry_after_seconds := retry_after }, st)
    else
      check_main cfg
        { st with blocked_until := updateFn st.blocked_until identifier none }
        identifier now
  | none => check_main cfg st identifier now

/-- `RateLimiter.block`. -/
def rate_limiter_block (st : RateLimiterState) (identifier : String)
    (now : ℚ) (duration_seconds : Nat := 300) : RateLimiterState :=
  { st with blocked_until := updateFn st.blocked_until identifier (some (now + (duration_seconds : ℚ))) }

/-- `RateLimiter.reset`. -/
def rate_limiter_reset (st : RateLimiterState) (identifier : String) :
    RateLimiterState :=
  { requests := updateFn st.requests identifier [],
    blocked_until := updateFn st.blocked_until identifier none }

/-- The limiter built by `InputSanitizationService.__init__`:
10 requests per 60 s, burst limit 5 in 10 s. -/
def service_rate_limiter_config : RateLimiterConfig :=
  { max_requests := 10, window_seconds := 60, burst_limit := 5,
    burst_window_seconds := 10 }

/-! ## Filename sanitization (`InputSanitizationService.sanitize_filename`) -/

/-- `SanitizationError` enum (the members used in this development). -/
inductive SanitizationError where
  | none
  | rate_limited
  | suspicious_content
  | invalid_characters
  | content_too_long
  | content_too_short
  | malicious_pattern
  | invalid_mime_type
  | invalid_extension
  | duplicate_submission
  deriving DecidableEq, Repr

/-- `SanitizationResult` as returned by `sanitize_filename`
(`sanitized_value` is a string; `[]` models Python `None`). -/
structure SanitizationResult where
  is_safe : Bool
  error : SanitizationError
  error_message : String
  sanitized_value : List Char := []
  warnings : List String := []

/-- Python `str.isspace` for the ASCII whitespace stripped by `strip()`. -/
def isPySpace (c : Char) : Bool :=
  c == ' ' || c == '\t' || c == '\n' || c == '\r'
    || c.toNat == 11 || c.toNat == 12

/-- Python `str.strip()`. -/
def pyStrip (l : List Char) : List Char :=
  ((l.dropWhile isPySpace).reverse.dropWhile isPySpace).reverse

/-- Python `s.replace("..", "")`: left-to-right removal of
non-overlapping `".."` occurrences. -/
def stripDotDot : List Char → List Char
  | [] => []
  | [a] => [a]
  | a :: b :: rest =>
    if a = '.' ∧ b = '.' then stripDotDot rest
    else a :: stripDotDot (b :: rest)

/-- Python `s.split(sep)[-1]`: the part after the last occurrence of
`sep` (the whole string when `sep` does not occur). -/
def lastPart (sep : Char) : List Char → List Char
  | [] => []
  | a :: rest =>
    if rest.contains sep then lastPart sep rest
    else if a = sep then rest else a :: rest

/-- The character class `UNSAFE_FILENAME_CHARS`:
`[<>:"/\\|?*\x00-\x1f]`. -/
def is_unsafe_filename_char (c : Char) : Bool :=
  c == '<' || c == '>' || c == ':' || c == '"' || c == '/' || c == '\\'
    || c == '|' || c == '?' || c == '*' || decide (c.toNat ≤ 31)

/-- `re.sub(UNSAFE_FILENAME_CHARS, "_", s)` acts per character. -/
def replace_unsafe_char (c : Char) : Char :=
  if is_unsafe_filename_char c then '_' else c

/-- `MAX_FILENAME_LENGTH`. -/
def MAX_FILENAME_LENGTH : Nat := 255

/-- The value reached just before the empty/`"."` test in
`sanitize_filename`: strip, remove `".."`, keep the part after the last
`/` and `\`, replace unsafe characters by `_`. -/
def sanitize_core (filename : List Char) : List Char :=
  (lastPart '\\' (lastPart '/' (stripDotDot (pyStrip filename)))).map
    replace_unsafe_char

/-- `InputSanitizationService.sanitize_filename`. -/
def sanitize_filename (filename : List Char) : SanitizationResult :=
  if filename = [] then
    { is_safe := false, error := .invalid_characters,
      error_message := "Filename is required" }
  else
    let stripped := pyStrip filename
    if MAX_FILENAME_LENGTH < stripped.length then
      { is_safe := false, error := .content_too_long,
        error_message := "Filename exceeds maximum length of 255 characters" }
    else
      let s3 := lastPart '\\' (lastPart '/' (stripDotDot stripped))
      let w1 : List String :=
        if s3 ≠ stripped then ["Path components were removed from filename"]
        else []
      let s4 := s3.map replace_unsafe_char
      let w2 : List String :=
        if s4 ≠ s3 then w1 ++ ["Unsafe characters were replaced in filename"]
        else w1
      if s4 = [] ∨ s4 = ['.'] then
        { is_safe := false, error := .invalid_characters,
          error_message := "Filename contains only invalid characters" }
      else
        match s4 with
        | '.' :: rest =>
          { is_safe := true, error := .none, error_message := "",
            sanitized_value := '_' :: rest,
            warnings := w2 ++ ["Leading dot was replaced to prevent hidden file"] }
        | _ =>
          { is_safe := true, error := .none, error_message := "",
            sanitized_value := s4, warnings := w2 }

/-! ## Options validation (`InputSanitizationService.validate_options`) -/

/-- `VALID_THEMES`. -/
def VALID_THEMES : List String :=
  ["auto", "neon_blue", "emerald_green", "cyber_pink"]

/-- `VALID_COMPONENT_STYLES`. -/
def VALID_COMPONENT_STYLES : List String :=
  ["modern", "classic", "minimal"]

/-- Python `s.lower().strip()` (character-level, so that it computes by
kernel reduction). -/
def pyLowerStrip (s : String) : String :=
  String.mk (pyStrip (s.toList.map Char.toLower))

/-- The result of `validate_options` (same Python dataclass as
`SanitizationResult`, but its `sanitized_value` is a dict). -/
structure OptionsValidationResult where
  is_safe : Bool
  error : SanitizationError
  error_message : String
  sanitized_options : PyDict := []
  warnings : List String := []

/-- `InputSanitizationService.validate_options`. The `isinstance(options,
dict)` failure branch cannot arise here because the argument type is
already a dict. -/
def validate_options (options : PyDict) : OptionsValidationResult :=
  let theme_raw := pyGetD options "theme_preference" (.str "auto")
  let theme_checked : String × List String :=
    match theme_raw with
    | .str s =>
      let t := pyLowerStrip s
      if VALID_THEMES.contains t then (t, [])
      else ("auto", ["Invalid theme_preference, defaulting to auto"])
    | _ => ("auto", ["theme_preference must be a string, defaulting to auto"])
  let style_raw := pyGetD options "component_style" (.str "modern")
  let style_checked : String × List String :=
    match style_raw with
    | .str s =>
      let t := pyLowerStrip s
      if VALID_COMPONENT_STYLES.contains t then (t, [])
      else ("modern", ["Invalid component_style, defaulting to modern"])
    | _ => ("modern", ["component_style must be a string, defaulting to modern"])
  { is_safe := true, error := .none, error_message := "",
    sanitized_options :=
      [("theme_preference", .str theme_checked.1),
       ("component_style", .str style_checked.1)],
    warnings := theme_checked.2 ++ style_checked.2 }

/-! ## Content validation and duplicate detection
(`InputSanitizationService.validate_content`) -/

/-- `MIN_CONTENT_SIZE` / `MIN_FILE_SIZE`. -/
def MIN_FILE_SIZE : Nat := 100

/-- `MAX_CONTENT_SIZE` / `MAX_FILE_SIZE` (10 MB). -/
def MAX_FILE_SIZE : Nat := 10 * 1024 * 1024

/-- `ALLOWED_EXTENSIONS`. -/
def ALLOWED_EXTENSIONS : List String := ["pdf", "png", "jpg", "jpeg"]

/-- `ALLOWED_MIME_TYPES`. -/
def ALLOWED_MIME_TYPES : List String :=
  ["application/pdf", "image/png", "image/jpeg", "image/jpg"]

/-- `_get_extension` (also `FileValidationService._get_file_extension`):
the lower-cased part after the last dot, or the empty string if the
filename has no dot. -/
def get_extension (filename : List Char) : String :=
  if filename.contains '.' then
    String.mk ((lastPart '.' filename).map Char.toLower)
  else ""

/-- `_detect_content_type` / `_detect_file_type`: magic-byte signatures
`%PDF`, PNG, JPEG, tested in insertion order. -/
def detect_content_type (content : List Nat) : Option String :=
  if [0x25, 0x50, 0x44, 0x46].isPrefixOf content then some "pdf"
  else if [0x89, 0x50, 0x4E, 0x47].isPrefixOf content then some "png"
  else if [0xFF, 0xD8, 0xFF].isPrefixOf content then some "jpg"
  else none

/-- `_recent_hashes`: identifier -> content hash -> submission time. -/
def DuplicateHistory := String → String → Option ℚ

/-- A fresh service's empty duplicate-submission history. -/
def emptyDuplicateHistory : DuplicateHistory := fun _ _ => none

/-- `_hash_window_seconds` (5 minutes). -/
def hash_window_seconds : ℚ := 300

/-- `_check_duplicate`: purge this identifier's entries older than the
window, then test membership. Returns the answer and the purged history
(the purge is a state mutation in the Python code). -/
def check_duplicate (st : DuplicateHistory) (content_hash identifier : String)
    (now : ℚ) : Bool × DuplicateHistory :=
  let window_start := now - hash_window_seconds
  let cleaned : DuplicateHistory :=
    updateFn st identifier
      (fun h => match st identifier h with
        | some ts => if window_start < ts then some ts else none
        | none => none)
  ((cleaned identifier content_hash).isSome, cleaned)

/-- `_record_submission`. -/
def record_submission (st : DuplicateHistory) (content_hash identifier : String)
    (now : ℚ) : DuplicateHistory :=
  updateFn st identifier
    (fun h => if h = content_hash then some now else st identifier h)

/-- `ContentValidationResult`. -/
structure ContentValidationResult where
  is_valid : Bool
  error : SanitizationError
  error_message : String
  content_hash : String := ""
  content_size : Nat := 0
  detected_type : String := ""
  warnings : List String := []

/-- `InputSanitizationService.validate_content`. `hashFn` abstracts
`compute_content_hash` (SHA-256 of the bytes). -/
def validate_content (hashFn : List Nat → String) (st : DuplicateHistory)
    (content : List Nat) (filename : List Char)
    (declared_content_type : Option String) (identifier : Option String)
    (now : ℚ) : ContentValidationResult × DuplicateHistory :=
  if content = [] then
    ({ is_valid := false, error := .content_too_short,
       error_message := "File content is empty" }, st)
  else
    let content_size := content.length
    if content_size < MIN_FILE_SIZE then
      ({ is_valid := false, error := .content_too_short,
         error_message := "File is too small", content_size := content_size }, st)
    else if MAX_FILE_SIZE < content_size then
      ({ is_valid := false, error := .content_too_long,
         error_message := "File exceeds maximum size of 10MB",
         content_size := content_size }, st)
    else
      let filename_result := sanitize_filename filename
      if filename_result.is_safe = false then
        ({ is_valid := false, error := filename_result.error,
           error_message := filename_result.error_message,
           content_size := content_size }, st)
      else
        let extension := get_extension filename_result.sanitized_value
        if (ALLOWED_EXTENSIONS.contains extension) = false then
          ({ is_valid := false, error := .invalid_extension,
             error_message := "Unsupported file extension",
             content_size := content_size }, st)
        else
          let detected_type := detect_content_type content
          let w1 : List String :=
            match detected_type with
            | some d =>
              if d ≠ extension
                  ∧ ¬(d ∈ (["jpg", "jpeg"] : List String)
                      ∧ extension ∈ (["jpg", "jpeg"] : List String)) then
                ["File content type differs from extension"]
              else []
            | none => []
          let w2 : List String :=
            match declared_content_type with
            | some ct =>
              if (ALLOWED_MIME_TYPES.contains ct) = false then
                w1 ++ ["Declared MIME type is not in allowed list"]
              else w1
            | none => w1
          let content_hash := hashFn content
          match identifier with
          | some ident =>
            let dup := check_duplicate st content_hash ident now
            if dup.1 then
              ({ is_valid := false, error := .duplicate_submission,
                 error_message := "This file was recently submitted. Please wait before resubmitting.",
                 content_hash := content_hash, content_size := content_size,
                 detected_type := detected_type.getD extension }, dup.2)
            else
              ({ is_valid := true, error := .none, error_message := "",
                 content_hash := content_hash, content_size := content_size,
                 detected_type := detected_type.getD extension,
                 warnings := w2 },
               record_submission dup.2 content_hash ident now)
          | none =>
            ({ is_valid := true, error := .none, error_message := "",
               content_hash := content_hash, content_size := content_size,
               detected_type := detected_type.getD extension,
               warnings := w2 }, st)

/-! ## File validation (`file_validation_service.FileValidationService`) -/

/-- `FileValidationError` enum. -/
inductive FileValidationError where
  | none
  | empty_file
  | file_too_large
  | unsupported_format
  | corrupted_file
  | invalid_pdf
  | invalid_image
  | missing_filename
  deriving DecidableEq, Repr

/-- `FileValidationResult`. -/
structure FileValidationResult where
  is_valid : Bool
  error : FileValidationError
  error_message : String
  file_type : String
  file_size : Nat
  detected_mime_type : Option String := Option.none

/-- Byte test `pattern in content` (Python `bytes` containment). -/
def bytesContain (content pattern : List Nat) : Bool :=
  decide (pattern <:+: content)

/-- `_validate_pdf_integrity`: `%PDF` header, `%%EOF` marker, `obj` and
`endobj` structure elements. Returns `true` when the PDF passes. -/
def validate_pdf_integrity (content : List Nat) : Bool :=
  [0x25, 0x50, 0x44, 0x46].isPrefixOf content
    && bytesContain content [0x25, 0x25, 0x45, 0x4F, 0x46]
    && bytesContain content [0x6F, 0x62, 0x6A]
    && bytesContain content [0x65, 0x6E, 0x64, 0x6F, 0x62, 0x6A]

/-- `FileValidationService.validate_file`. `imageOk` abstracts
`_validate_image_integrity` (PIL parsing, an external collaborator);
`_validate_pdf_integrity` is pure and embedded above. -/
def validate_file (imageOk : List Nat → Bool) (content : List Nat)
    (filename : List Char) (declared_content_type : Option String) :
    FileValidationResult :=
  if filename = [] ∨ pyStrip filename = [] then
    { is_valid := false, error := .missing_filename,
      error_message := "Filename is required", file_type := "",
      file_size := content.length }
  else if content = [] then
    { is_valid := false, error := .empty_file,
      error_message := "File is empty", file_type := "", file_size := 0 }
  else
    let file_size := content.length
    if file_size < MIN_FILE_SIZE then
      { is_valid := false, error := .empty_file,
        error_message := "File is too small", file_type := "",
        file_size := file_size }
    else if MAX_FILE_SIZE < file_size then
      { is_valid := false, error := .file_too_large,
        error_message := "File exceeds maximum size of 10MB",
        file_type := "", file_size := file_size }
    else
      let file_extension := get_extension filename
      if (ALLOWED_EXTENSIONS.contains file_extension) = false then
        { is_valid := false, error := .unsupported_format,
          error_message := "Unsupported file format",
          file_type := file_extension, file_size := file_size }
      else
        let detected_type := detect_content_type content
        let mismatch : Bool :=
          match detected_type with
          | some d =>
            decide (d ≠ file_extension
              ∧ ¬(d ∈ (["jpg", "jpeg"] : List String)
                  ∧ file_extension ∈ (["jpg", "jpeg"] : List String)))
          | none => false
        if mismatch then
          { is_valid := false, error := .corrupted_file,
            error_message := "File content does not match extension",
            file_type := file_extension, file_size := file_size,
            detected_mime_type := detected_type }
        else
          let integrity_ok :=
            if file_extension = "pdf" then validate_pdf_integrity content
            else imageOk content
          if integrity_ok = false then
            { is_valid := false, error := .corrupted_file,
              error_message := "File failed integrity validation",
              file_type := file_extension, file_size := file_size }
          else
            { is_valid := true, error := .none, error_message := "",
              file_type := file_extension, file_size := file_size,
              detected_mime_type := detected_type }

/-! ## Data-model tables (`models.py`) -/

/-- `ComponentSelection.clean`'s `required_props` table, keyed by the
`ComponentType` enum values. -/
def required_props (component_type : String) : List String :=
  if component_type = "tool_hero_prism" then ["title", "name"]
  else if component_type = "tool_hero_terminal" then ["commands", "name", "title"]
  else if component_type = "tool_exp_timeline" then ["experiences"]
  else if component_type = "tool_exp_masonry" then ["experiences"]
  else if component_type = "tool_skills_dots" then ["skills"]
  else if component_type = "tool_skills_radar" then ["skills"]
  else if component_type = "tool_stats_bento" then ["achievements"]
  else []

/-- A component configuration dict as built by the pipeline:
`{'type': ..., 'props': {...}, 'order': ..., 'theme': ...}`. -/
structure ComponentConfig where
  type : String
  props : PyDict
  order : Nat
  theme : String

/-- `props` has every per-type required key. -/
def has_required_props (c : ComponentConfig) : Bool :=
  (required_props c.type).all (fun k => c.props.any (fun kv => kv.1 == k))

/-! ## Fallback content (`ErrorRecoveryService`) -/

/-- The default skills list used by the fallback profile. -/
def default_skills : PyVal :=
  .list
    [.dict [("name", .str "Communication"), ("level", .int 4), ("category", .str "Soft Skills")],
     .dict [("name", .str "Problem Solving"), ("level", .int 4), ("category", .str "Soft Skills")],
     .dict [("name", .str "Teamwork"), ("level", .int 4), ("category", .str "Soft Skills")]]

/-- The default achievements list used by the fallback profile. -/
def default_achievements : PyVal :=
  .list
    [.dict [("id", .str "1"), ("label", .str "Years Experience"), ("value", .str "5+")],
     .dict [("id", .str "2"), ("label", .str "Projects"), ("value", .str "10+")]]

/-- `ErrorRecoveryService.get_default_fallback_profile`. The `uuid4` id
is modelled by a fixed placeholder string (the id is never inspected). -/
def get_default_fallback_profile : PyDict :=
  [("id", .str "00000000-0000-4000-8000-000000000000"),
   ("name", .str "Portfolio User"),
   ("title", .str "Professional"),
   ("professionalCategory", .str "hybrid"),
   ("skills", default_skills),
   ("experience", .list []),
   ("education", .list []),
   ("projects", .list []),
   ("contact", .dict []),
   ("extractedText", .str ""),
   ("confidence", .rat (3/10)),
   ("summary", .str "Professional portfolio generated with default settings."),
   ("achievements", default_achievements)]

/-- `ErrorRecoveryService.get_default_fallback_components`. -/
def get_default_fallback_components : List ComponentConfig :=
  [{ type := "tool_hero_prism",
     props := [("theme", .str "ocean"), ("title", .str "Professional"),
               ("name", .str "Portfolio User"),
               ("subtitle", .str "Welcome to my portfolio")],
     order := 0, theme := "ocean" },
   { type := "tool_exp_timeline",
     props := [("experiences", .list [])], order := 1, theme := "" },
   { type := "tool_skills_radar",
     props := [("skills", default_skills)], order := 2, theme := "" },
   { type := "tool_stats_bento",
     props := [("achievements", default_achievements)], order := 3, theme := "" }]

/-- `ErrorRecoveryService.get_fallback_components_for_category`. -/
def get_fallback_components_for_category (category : String)
    (profile : PyDict) : List ComponentConfig :=
  let name := pyGetD profile "name" (.str "Portfolio User")
  let title := pyGetD profile "title" (.str "Professional")
  let skills := pyGetD profile "skills"
    (.list
      [.dict [("name", .str "Communication"), ("level", .int 4), ("category", .str "Soft Skills")],
       .dict [("name", .str "Problem Solving"), ("level", .int 4), ("category", .str "Soft Skills")]])
  let experience := pyGetD profile "experience" (.list [])
  let achievements := pyGetD profile "achievements" default_achievements
  if category = "creative" then
    [{ type := "tool_hero_prism",
       props := [("theme", .str "sunset"), ("title", title), ("name", name),
                 ("subtitle", pyGetD profile "summary" (.str "Creative professional"))],
       order := 0, theme := "sunset" },
     { type := "tool_exp_masonry",
       props := [("experiences", experience),
                 ("projects", pyGetD profile "projects" (.list []))],
       order := 1, theme := "" },
     { type := "tool_skills_dots",
       props := [("skills", skills), ("maxLevel", .int 5)],
       order := 2, theme := "" },
     { type := "tool_stats_bento",
       props := [("achievements", achievements)], order := 3, theme := "" }]
  else if category = "technical" then
    [{ type := "tool_hero_terminal",
       props := [("theme", .str "matrix"),
                 ("commands", .list
                   [.str ("whoami -> " ++ pyToString name),
                    .str ("cat title.txt -> " ++ pyToString title),
                    .str "ls skills/ -> [loading...]"]),
                 ("name", name), ("title", title)],
       order := 0, theme := "matrix" },
     { type := "tool_exp_timeline",
       props := [("experiences", experience)], order := 1, theme := "" },
     { type := "tool_skills_radar",
       props := [("skills", skills)], order := 2, theme := "" },
     { type := "tool_stats_bento",
       props := [("achievements", achievements)], order := 3, theme := "" }]
  else
    [{ type := "tool_hero_prism",
       props := [("theme", .str "ocean"), ("title", title), ("name", name),
                 ("subtitle", pyGetD profile "summary" (.str "Welcome to my portfolio"))],
       order := 0, theme := "ocean" },
     { type := "tool_exp_timeline",
       props := [("experiences", experience)], order := 1, theme := "" },
     { type := "tool_skills_radar",
       props := [("skills", skills)], order := 2, theme := "" },
     { type := "tool_stats_bento",
       props := [("achievements", achievements)], order := 3, theme := "" }]

/-- `ErrorRecoveryService.get_fallback_theme` (identical to the map in
`PipelineService._select_theme`). -/
def get_fallback_theme (category : String) : String :=
  if category = "creative" then "cyber_pink"
  else if category = "technical" then "neon_blue"
  else if category = "corporate" then "emerald_green"
  else if category = "hybrid" then "neon_blue"
  else "neon_blue"

/-! ## Pipeline service (`pipeline_service.py`) -/

/-- `OCRResult` dataclass of `ocr_service.py` (the `blocks` payload is
abstracted to `PyVal`s). Note the field is named `blocks`. -/
structure OCRResult where
  success : Bool
  full_text : String
  blocks : List PyVal := []
  confidence : ℚ := 0
  page_count : Nat := 1
  error_message : String := ""

/-- The field names of the `OCRResult` dataclass, in declaration order. -/
def ocr_result_field_names : List String :=
  ["success", "full_text", "blocks", "confidence", "page_count",
   "error_message"]

/-- The keyword arguments used by `PipelineService._run_ocr_with_retry`
to construct its fallback `OCRResult`. The fourth keyword is
`text_blocks`, which is not a field of the dataclass. -/
def fallback_ocr_kwargs : List String :=
  ["success", "full_text", "text_blocks", "confidence", "error_message"]

/-- The retry configuration built in `PipelineService.__init__` for OCR. -/
def ocr_retry_config : RetryConfig :=
  { max_retries := 2, base_delay_seconds := 1, strategy := .exponential,
    retryable_exceptions :=
      [.connectionError, .timeoutError, .asyncioTimeoutError] }

/-- `PipelineService._run_ocr_with_retry`. `ocrOp n` is the outcome of
the `n`-th OCR collaborator invocation, `u` the jitter draws. A Python
dataclass constructor raises `TypeError` when given a keyword that is not
a field, so the fallback `OCRResult` construction is guarded by the
keyword/field check; with the source's keyword list the guard fails and
the call raises before any OCR attempt. -/
def run_ocr_with_retry (ocrOp : Nat → Except PyError OCRResult)
    (u : Nat → ℚ) : Except PyError OCRResult :=
  if fallback_ocr_kwargs.all (fun k => ocr_result_field_names.contains k) then
    let fallback_result : OCRResult :=
      { success := false, full_text := "", blocks := [], confidence := 0,
        error_message := "OCR failed after retries, using empty text fallback" }
    let result := execute_with_retry ocr_retry_config ocrOp u
      (some { enable_fallback := true, fallback_value := some fallback_result,
              fallback_factory := Option.none, log_fallback := true })
    .ok (if result.success then result.value.getD fallback_result
         else fallback_result)
  else
    .error { kind := .typeError,
             msg := "OCRResult init got an unexpected keyword argument text_blocks" }

/-- `PipelineService._get_creative_components`. -/
def get_creative_components (profile : PyDict) : List ComponentConfig :=
  [{ type := "tool_hero_prism",
     props := [("theme", .str "sunset"),
               ("title", pyGetD profile "title" (.str "Creative Professional")),
               ("name", pyGetD profile "name" (.str "Portfolio User")),
               ("subtitle", pyGetD profile "summary" (.str ""))],
     order := 0, theme := "sunset" },
   { type := "tool_exp_masonry",
     props := [("experiences", pyGetD profile "experience" (.list [])),
               ("projects", pyGetD profile "projects" (.list []))],
     order := 1, theme := "" },
   { type := "tool_skills_dots",
     props := [("skills", pyGetD profile "skills" (.list [])),
               ("maxLevel", .int 5)],
     order := 2, theme := "" },
   { type := "tool_stats_bento",
     props := [("achievements", pyGetD profile "achievements" (.list []))],
     order := 3, theme := "" }]

/-- `PipelineService._get_technical_components`. -/
def get_technical_components (profile : PyDict) : List ComponentConfig :=
  [{ type := "tool_hero_terminal",
     props := [("theme", .str "matrix"),
               ("commands", .list
                 [.str ("whoami -> " ++ pyToString (pyGetD profile "name" (.str "developer"))),
                  .str ("cat title.txt -> " ++ pyToString (pyGetD profile "title" (.str "Software Engineer"))),
                  .str "ls skills/ -> [loading...]"]),
               ("name", pyGetD profile "name" (.str "Developer")),
               ("title", pyGetD profile "title" (.str "Software Engineer"))],
     order := 0, theme := "matrix" },
   { type := "tool_exp_timeline",
     props := [("experiences", pyGetD profile "experience" (.list []))],
     order := 1, theme := "" },
   { type := "tool_skills_radar",
     props := [("skills", pyGetD profile "skills" (.list []))],
     order := 2, theme := "" },
   { type := "tool_stats_bento",
     props := [("achievements", pyGetD profile "achievements" (.list []))],
     order := 3, theme := "" }]

/-- `PipelineService._get_corporate_components`. -/
def get_corporate_components (profile : PyDict) : List ComponentConfig :=
  [{ type := "tool_hero_prism",
     props := [("theme", .str "ocean"),
               ("title", pyGetD profile "title" (.str "Professional")),
               ("name", pyGetD profile "name" (.str "Portfolio User")),
               ("subtitle", pyGetD profile "summary" (.str ""))],
     order := 0, theme := "ocean" },
   { type := "tool_exp_timeline",
     props := [("experiences", pyGetD profile "experience" (.list []))],
     order := 1, theme := "" },
   { type := "tool_skills_radar",
     props := [("skills", pyGetD profile "skills" (.list []))],
     order := 2, theme := "" },
   { type := "tool_stats_bento",
     props := [("achievements", pyGetD profile "achievements" (.list []))],
     order := 3, theme := "" }]

/-- `PipelineService._get_hybrid_components`. -/
def get_hybrid_components (profile : PyDict) : List ComponentConfig :=
  [{ type := "tool_hero_prism",
     props := [("theme", .str "ocean"),
               ("title", pyGetD profile "title" (.str "Professional")),
               ("name", pyGetD profile "name" (.str "Portfolio User")),
               ("subtitle", pyGetD profile "summary" (.str ""))],
     order := 0, theme := "ocean" },
   { type := "tool_exp_timeline",
     props := [("experiences", pyGetD profile "experience" (.list []))],
     order := 1, theme := "" },
   { type := "tool_skills_radar",
     props := [("skills", pyGetD profile "skills" (.list []))],
     order := 2, theme := "" },
   { type := "tool_stats_bento",
     props := [("achievements", pyGetD profile "achievements" (.list []))],
     order := 3, theme := "" }]

/-- `PipelineService._select_components`: dispatch on the profile's
professional category, defaulting to the hybrid set. -/
def select_components (candidate_profile : PyDict) : List ComponentConfig :=
  let category := pyGetD candidate_profile "professionalCategory" (.str "hybrid")
  if pyEqStr category "creative" then get_creative_components candidate_profile
  else if pyEqStr category "technical" then get_technical_components candidate_profile
  else if pyEqStr category "corporate" then get_corporate_components candidate_profile
  else get_hybrid_components candidate_profile

/-- `PipelineService._select_theme`: a non-`"auto"` theme preference is
returned as is (whatever its value); `"auto"` resolves through the
category-to-theme map with default `neon_blue`. -/
def select_theme (candidate_profile : PyDict) (options : PyDict) : PyVal :=
  let theme_pref := pyGetD options "theme_preference" (.str "auto")
  match theme_pref with
  | .str s =>
    if s = "auto" then
      let category := pyGetD candidate_profile "professionalCategory" (.str "hybrid")
      .str (get_fallback_theme (match category with | .str c => c | _ => ""))
    else .str s
  | v => v

/-- `PipelineResult` (the persisted `resume` / `processing_result`
records are external bookkeeping and not modelled). -/
structure PipelineResult where
  success : Bool
  candidate_profile : PyDict := []
  components : List ComponentConfig := []
  theme : PyVal := .str "neon_blue"
  processing_time_ms : Nat := 0
  error_message : String := ""

/-- The stages of `PipelineService.process` after the rate-limit gate:
filename sanitization, option validation, file validation, then the
stages wrapped by the outer `try`: OCR with retry, analysis with
fallback (`analysisOp` is the analysis step's behaviour; any exception
from it is absorbed by `_analyze_resume_with_fallback`), component
selection, theme selection. Database writes and progress emissions are
external effects without influence on the returned value. -/
def process_after_rate_limit (imageOk : List Nat → Bool)
    (ocrOp : Nat → Except PyError OCRResult) (u : Nat → ℚ)
    (analysisOp : String → PyDict → Except PyError PyDict)
    (content : List Nat) (filename : List Char)
    (content_type : Option String) (options : PyDict) : PipelineResult :=
  let filename_result := sanitize_filename filename
  if filename_result.is_safe = false then
    { success := false, error_message := filename_result.error_message }
  else
    let sanitized_filename := filename_result.sanitized_value
    let options_result := validate_options options
    let sanitized_options :=
      if options_result.is_safe then options_result.sanitized_options else []
    let validation_result :=
      validate_file imageOk content sanitized_filename content_type
    if validation_result.is_valid = false then
      { success := false, error_message := validation_result.error_message }
    else
      match run_ocr_with_retry ocrOp u with
      | .error e => { success := false, error_message := e.msg }
      | .ok ocr_result =>
        let extracted_text := if ocr_result.success then ocr_result.full_text else ""
        let candidate_profile :=
          match analysisOp extracted_text sanitized_options with
          | .ok p => p
          | .error _ => get_default_fallback_profile
        let components := select_components candidate_profile
        let theme := select_theme candidate_profile sanitized_options
        { success := true, candidate_profile := candidate_profile,
          components := components, theme := theme }

/-- `PipelineService.process`: rate-limit gate (when a client identifier
is given), then the staged pipeline; any exception escaping a stage is
caught by the outer handler and converted into a failure result carrying
the exception's message. Returns the result together with the rate
limiter's updated state. -/
def process (imageOk : List Nat → Bool)
    (ocrOp : Nat → Except PyError OCRResult) (u : Nat → ℚ)
    (analysisOp : String → PyDict → Except PyError PyDict)
    (st : RateLimiterState) (content : List Nat) (filename : List Char)
    (content_type : Option String) (options : PyDict)
    (client_identifier : Option String) (now : ℚ) :
    PipelineResult × RateLimiterState :=
  match client_identifier with
  | some ident =>
    let checked := rate_limiter_check service_rate_limiter_config st ident now
    if checked.1.allowed = false then
      ({ success := false, error_message := "Rate limit exceeded. Please try again later." },
       checked.2)
    else
      (process_after_rate_limit imageOk ocrOp u analysisOp content filename
        content_type options, checked.2)
  | none =>
    (process_after_rate_limit imageOk ocrOp u analysisOp content filename
      content_type options, st)

/-! ## Auxiliary definitions used by the theorems and their
witnesses -/

/-- An operation raising `ConnectionError("connection reset by peer")`
(retryable) on every invocation. -/
def always_conn_error : Nat → Except PyError Unit :=
  fun _ => Except.error
    { kind := .connectionError, msg := "connection reset by peer" }

/-- An operation raising `ValueError("boom")` (classified Unknown, not in
any retryable allowlist) on every invocation. -/
def always_unknown_error : Nat → Except PyError Unit :=
  fun _ => Except.error { kind := .valueError, msg := "boom" }

/-- The `RetryConfig` with one retry, used by the C4 counterexample. -/
def one_retry_config : RetryConfig := { max_retries := 1 }

/-- The jittered configuration used to witness `calculate_delay_spec`. -/
def jittered_test_config : RetryConfig := { strategy := .jittered }

/-- The non-emptiness, contiguous-order and required-props invariant of a
produced component list. -/
def components_ok (l : List ComponentConfig) : Prop :=
  l ≠ [] ∧ l.map (fun c => c.order) = List.range l.length
    ∧ ∀ c ∈ l, has_required_props c = true

/-- A limiter state holding five timestamps inside the burst window. -/
def burst_test_state : RateLimiterState :=
  { requests := fun _ => [0, 1, 2, 3, 4], blocked_until := fun _ => Option.none }

/-- A sequence of `check` calls for one identifier at the given times,
returning the allowed-flags in order and the final state. -/
def run_rate_checks (cfg : RateLimiterConfig) :
    RateLimiterState → String → List ℚ → List Bool × RateLimiterState
  | st, _, [] => ([], st)
  | st, identifier, t :: ts =>
    let r := rate_limiter_check cfg st identifier t
    let rest := run_rate_checks cfg r.2 identifier ts
    (r.1.allowed :: rest.1, rest.2)

/-- Two adjacent dots (a ".." substring) occur in the character list. -/
def hasDotDot : List Char → Bool
  | a :: b :: rest => (a == '.' && b == '.') || hasDotDot (b :: rest)
  | _ => false

/-- The head of the list is a dot. -/
def headIsDot : List Char → Bool
  | c :: _ => c == '.'
  | [] => false

/-- A concrete stand-in for the SHA-256 fingerprint used to witness
`duplicate_detection_spec`. -/
def test_hash : List Nat → String := fun _ => "h"

/-- A minimal byte string passing the PDF validation path: `%PDF` header,
padding, `obj`, `endobj` and `%%EOF`. -/
def pdf_test_content : List Nat :=
  [0x25, 0x50, 0x44, 0x46] ++ List.replicate 90 0x20
    ++ [0x6F, 0x62, 0x6A] ++ [0x65, 0x6E, 0x64, 0x6F, 0x62, 0x6A]
    ++ [0x25, 0x25, 0x45, 0x4F, 0x46]

/-- An OCR collaborator that raises `ConnectionError` on every call. -/
def failing_ocr_op : Nat → Except PyError OCRResult :=
  fun _ => Except.error { kind := .connectionError, msg := "ocr down" }

/-- An analysis step that raises `ValueError` on every call. -/
def failing_analysis_op : String → PyDict → Except PyError PyDict :=
  fun _ _ => Except.error { kind := .valueError, msg := "analysis down" }

/-! ## Helper lemmas: retry loop under permanent failure -/

theorem retry_loop_error_step {α : Type} (cfg : RetryConfig)
    (op : Nat → Except PyError α) (u : Nat → ℚ) (fuel a : Nat) (t : ℚ)
    (e : PyError) (he : op a = Except.error e) :
    retry_loop cfg op u fuel a t =
      if should_retry cfg e a then
        match fuel with
        | f + 1 => retry_loop cfg op u f (a + 1) (t + calculate_delay cfg a (u a))
        | 0 => { success := false, attempts := a + 1, total_delay_seconds := t,
                 last_error := some e, error_category := classify e }
      else { success := false, attempts := a + 1, total_delay_seconds := t,
             last_error := some e, error_category := classify e } := by
  rw [retry_loop, he]

theorem retry_loop_fail {α : Type} (cfg : RetryConfig)
    (op : Nat → Except PyError α) (u : Nat → ℚ)
    (hop : ∀ n, ∃ e, op n = Except.error e) :
    ∀ fuel attempt total_delay,
      (retry_loop cfg op u fuel attempt total_delay).success = false := by
  intro fuel
  induction fuel with
  | zero =>
    intro a t
    obtain ⟨e, he⟩ := hop a
    rw [retry_loop_error_step cfg op u 0 a t e he]
    split <;> rfl
  | succ f ih =>
    intro a t
    obtain ⟨e, he⟩ := hop a
    rw [retry_loop_error_step cfg op u (f + 1) a t e he]
    split
    · exact ih (a + 1) _
    · rfl

theorem retry_loop_attempts {α : Type} (cfg : RetryConfig)
    (op : Nat → Except PyError α) (u : Nat → ℚ)
    (hop : ∀ n, ∃ e, op n = Except.error e)
    (hr : ∀ n e, op n = Except.error e → retryable_error cfg e = true) :
    ∀ fuel attempt total_delay, attempt ≤ cfg.max_retries →
      cfg.max_retries - attempt ≤ fuel →
      (retry_loop cfg op u fuel attempt total_delay).attempts
        = cfg.max_retries + 1 := by
  intro fuel
  induction fuel with
  | zero =>
    intro a t ha hf
    have haeq : a = cfg.max_retries := by omega
    obtain ⟨e, he⟩ := hop a
    have hsr : should_retry cfg e a = false := by
      rw [should_retry, if_pos (by omega : cfg.max_retries ≤ a)]
    rw [retry_loop, he]
    simp only [hsr, Bool.false_eq_true, if_false]
    rw [haeq]
  | succ f ih =>
    intro a t ha hf
    obtain ⟨e, he⟩ := hop a
    by_cases hlt : a < cfg.max_retries
    · have hsr : should_retry cfg e a = true := by
        rw [should_retry, if_neg (Nat.not_le_of_lt hlt)]
        exact hr a e he
      rw [retry_loop, he]
      simp only [hsr, if_true]
      exact ih (a + 1) _ (by omega) (by omega)
    · have haeq : a = cfg.max_retries := by omega
      have hsr : should_retry cfg e a = false := by
        rw [should_retry, if_pos (by omega : cfg.max_retries ≤ a)]
      rw [retry_loop, he]
      simp only [hsr, Bool.false_eq_true, if_false]
      rw [haeq]

/-- C3 (amended): when every invocation raises a *retryable* error
(allowlisted exception type, or one classified Transient/RateLimited),
`execute_with_retry` with `max_retries = r` invokes the operation exactly
`r + 1` times, reporting `attempts = r + 1`; the outcome is non-success
without a fallback, and a success-via-fallback when an enabled fallback
is configured. (The unrestricted claim fails: see the counterexample.) -/
theorem retry_exhaustion_attempts {α : Type} (cfg : RetryConfig)
    (op : Nat → Except PyError α) (u : Nat → ℚ)
    (fb : Option (FallbackConfig α))
    (hop : ∀ n, ∃ e, op n = Except.error e)
    (hr : ∀ n e, op n = Except.error e → retryable_error cfg e = true) :
    (execute_with_retry cfg op u fb).attempts = cfg.max_retries + 1
    ∧ (fb = Option.none → (execute_with_retry cfg op u fb).success = false)
    ∧ (∀ f, fb = some f → f.enable_fallback = true →
        (execute_with_retry cfg op u fb).success = true) := by
  have hcs := retry_loop_fail cfg op u hop (cfg.max_retries + 1) 0 0
  have hca := retry_loop_attempts cfg op u hop hr (cfg.max_retries + 1) 0 0
    (by omega) (by omega)
  refine ⟨?_, ?_, ?_⟩
  · simp only [execute_with_retry, hcs, Bool.false_eq_true, if_false]
    match fb with
    | Option.none => exact hca
    | some f =>
      by_cases hef : f.enable_fallback
      · simp only [hef, if_true]
        exact hca
      · simp only [hef, Bool.false_eq_true, if_false]
        exact hca
  · intro hfb
    subst hfb
    simp [execute_with_retry, hcs]
  · intro f hfb hef
    subst hfb
    simp only [execute_with_retry, hcs, Bool.false_eq_true, if_false, hef,
      if_true]

/-- Witness for `retry_exhaustion_attempts` at the default config
(`max_retries = 3`): 4 attempts and a non-success outcome. -/
theorem retry_exhaustion_attempts_witness :
    (execute_with_retry ({} : RetryConfig) always_conn_error (fun _ => 0)
      Option.none).attempts = 4
    ∧ (execute_with_retry ({} : RetryConfig) always_conn_error (fun _ => 0)
        Option.none).success = false := by
  have h := retry_exhaustion_attempts ({} : RetryConfig) always_conn_error
    (fun _ => 0) Option.none (fun _ => ⟨_, rfl⟩)
    (fun n e he => by
      simp only [always_conn_error] at he
      injection he with h1
      rw [← h1]
      decide)
  exact ⟨h.1, h.2.1 rfl⟩

/-- C3 counterexample: with the default `RetryConfig` (`max_retries = 3`)
and an operation that raises `ValueError("boom")` on every invocation —
an always-failing operation — `execute_with_retry` invokes the operation
exactly once and reports `attempts = 1`, not `max_retries + 1 = 4`. -/
theorem retry_attempts_counterexample :
    (execute_with_retry ({} : RetryConfig) always_unknown_error (fun _ => 0)
      Option.none).attempts = 1
    ∧ ¬((execute_with_retry ({} : RetryConfig) always_unknown_error
        (fun _ => 0) Option.none).attempts = ({} : RetryConfig).max_retries + 1) := by
  decide

/-- C4 (amended): an Unknown-classified error whose type is not in the
configured retryable allowlist is never retried: `should_retry` is false
at every attempt number, so a single failed invocation goes straight to
the fallback (`attempts = 1`), regardless of `max_retries`. (The claim's
"retried exactly once" fails: see the counterexample.) -/
theorem unknown_error_not_retried {α : Type} (cfg : RetryConfig)
    (e : PyError) (a : Nat)
    (hk : cfg.retryable_exceptions.any (fun c => isInstance e.kind c) = false)
    (hc : classify e = .unknown) :
    should_retry cfg e a = false
    ∧ (∀ (op : Nat → Except PyError α) (u : Nat → ℚ)
        (fb : Option (FallbackConfig α)), (∀ n, op n = Except.error e) →
        (execute_with_retry cfg op u fb).attempts = 1) := by
  have hre : retryable_error cfg e = false := by
    rw [retryable_error, hk, hc]
    rfl
  constructor
  · rw [should_retry]
    split
    · rfl
    · exact hre
  · intro op u fb hop
    have hsr : should_retry cfg e 0 = false := by
      rw [should_retry]
      split
      · rfl
      · exact hre
    have hcs : (retry_loop cfg op u (cfg.max_retries + 1) 0 0).success = false := by
      rw [retry_loop, hop 0]
      simp only [hsr, Bool.false_eq_true, if_false]
    have hca : (retry_loop cfg op u (cfg.max_retries + 1) 0 0).attempts = 1 := by
      rw [retry_loop, hop 0]
      simp only [hsr, Bool.false_eq_true, if_false]
    simp only [execute_with_retry, hcs, Bool.false_eq_true, if_false]
    match fb with
    | Option.none => exact hca
    | some f =>
      by_cases hef : f.enable_fallback
      · simp only [hef, if_true]
        exact hca
      · simp only [hef, Bool.false_eq_true, if_false]
        exact hca

/-- Witness for `unknown_error_not_retried` at `max_retries = 2` and
`ValueError("boom")`. -/
theorem unknown_error_not_retried_witness :
    should_retry { max_retries := 2 } { kind := .valueError, msg := "boom" } 0 = false
    ∧ (execute_with_retry { max_retries := 2 } always_unknown_error (fun _ => 0)
        (some { fallback_value := some () })).attempts = 1 := by
  have h := unknown_error_not_retried (α := Unit) { max_retries := 2 }
    { kind := .valueError, msg := "boom" } 0 (by decide) (by decide)
  exact ⟨h.1, h.2 always_unknown_error (fun _ => 0)
    (some { fallback_value := some () }) (fun _ => rfl)⟩

/-- C4 counterexample: with `max_retries = 1` and an operation that
always raises the Unknown-classified `ValueError("boom")`, the operation
is invoked exactly once (`attempts = 1`, and the enabled fallback makes
the outcome a success), not retried once more (`attempts = 2`) as the
claim states. -/
theorem unknown_retry_counterexample :
    (execute_with_retry one_retry_config always_unknown_error (fun _ => 0)
      (some { fallback_value := some () })).attempts = 1
    ∧ ¬((execute_with_retry one_retry_config always_unknown_error (fun _ => 0)
        (some { fallback_value := some () })).attempts = 2)
    ∧ (execute_with_retry one_retry_config always_unknown_error (fun _ => 0)
        (some { fallback_value := some () })).success = true := by
  decide

/-- C7: under the Exponential strategy the computed backoff delay at
attempt `a` is exactly `min(base * 2^a, max_delay)`; under the Jittered
strategy, for every jitter draw `u ∈ [0, 1]` (Python `random.random()`),
the delay lies between `base * 2^a` and `base * 2^a * (1 + jitter_factor)`,
both capped at `max_delay`. -/
theorem calculate_delay_spec (cfg : RetryConfig) (a : Nat) (u : ℚ)
    (hu0 : 0 ≤ u) (hu1 : u ≤ 1) (hb : 0 ≤ cfg.base_delay_seconds)
    (hj : 0 ≤ cfg.jitter_factor) :
    (cfg.strategy = .exponential →
      calculate_delay cfg a u
        = min (cfg.base_delay_seconds * 2 ^ a) cfg.max_delay_seconds)
    ∧ (cfg.strategy = .jittered →
        min (cfg.base_delay_seconds * 2 ^ a) cfg.max_delay_seconds
          ≤ calculate_delay cfg a u
        ∧ calculate_delay cfg a u
          ≤ min (cfg.base_delay_seconds * 2 ^ a * (1 + cfg.jitter_factor))
              cfg.max_delay_seconds) := by
  have h3 : (0 : ℚ) ≤ cfg.base_delay_seconds * 2 ^ a * cfg.jitter_factor * u := by
    positivity
  have h4 : (0 : ℚ) ≤ cfg.base_delay_seconds * 2 ^ a * cfg.jitter_factor := by
    positivity
  have h5 : cfg.base_delay_seconds * 2 ^ a * cfg.jitter_factor * u
      ≤ cfg.base_delay_seconds * 2 ^ a * cfg.jitter_factor :=
    mul_le_of_le_one_right h4 hu1
  have h6 : cfg.base_delay_seconds * 2 ^ a * (1 + cfg.jitter_factor)
      = cfg.base_delay_seconds * 2 ^ a
        + cfg.base_delay_seconds * 2 ^ a * cfg.jitter_factor := by
    ring
  refine ⟨fun hs => ?_, fun hs => ⟨?_, ?_⟩⟩
  · simp [calculate_delay, hs]
  · simp only [calculate_delay, hs]
    refine min_le_min ?_ le_rfl
    linarith
  · simp only [calculate_delay, hs]
    refine min_le_min ?_ le_rfl
    linarith

/-- Witness for `calculate_delay_spec` at the jittered strategy with
`base = 1`, `jitter_factor = 1/10`, attempt 2 and draw `u = 1/2`. -/
theorem calculate_delay_spec_witness :
    min ((1 : ℚ) * 2 ^ 2) 30 ≤ calculate_delay jittered_test_config 2 (1/2)
    ∧ calculate_delay jittered_test_config 2 (1/2)
        ≤ min ((1 : ℚ) * 2 ^ 2 * (1 + 1/10)) 30 := by
  have h := (calculate_delay_spec jittered_test_config 2 (1/2)
    (by norm_num) (by norm_num)
    (by norm_num [jittered_test_config])
    (by norm_num [jittered_test_config])).2 rfl
  exact h

/-- C5: the theme value "purple" is outside the enumerated theme set,
`PipelineService._select_theme` nevertheless returns it unchanged for an
options map carrying it (invalid preferences are passed through, not
defaulted), while `validate_options` on the same options map substitutes
the documented default "auto" and records a warning. (Inside
`PipelineService.process` the options reach `_select_theme` only after
`validate_options`; the upload view's pipeline passes raw options to
`_select_theme` directly.) -/
theorem invalid_theme_passthrough_vs_validate :
    VALID_THEMES.contains "purple" = false
    ∧ select_theme [] [("theme_preference", PyVal.str "purple")]
        = PyVal.str "purple"
    ∧ pyGetD (validate_options
          [("theme_preference", PyVal.str "purple")]).sanitized_options
        "theme_preference" (PyVal.str "")
        = PyVal.str "auto"
    ∧ (validate_options [("theme_preference", PyVal.str "purple")]).warnings
        ≠ [] := by
  refine ⟨by decide, rfl, rfl, by decide⟩

theorem creative_components_ok (p : PyDict) :
    components_ok (get_creative_components p) := by
  refine ⟨by simp [get_creative_components], rfl, ?_⟩
  intro c hc
  simp only [get_creative_components, List.mem_cons, List.not_mem_nil,
    or_false] at hc
  rcases hc with rfl | rfl | rfl | rfl <;> rfl

theorem technical_components_ok (p : PyDict) :
    components_ok (get_technical_components p) := by
  refine ⟨by simp [get_technical_components], rfl, ?_⟩
  intro c hc
  simp only [get_technical_components, List.mem_cons, List.not_mem_nil,
    or_false] at hc
  rcases hc with rfl | rfl | rfl | rfl <;> rfl

theorem corporate_components_ok (p : PyDict) :
    components_ok (get_corporate_components p) := by
  refine ⟨by simp [get_corporate_components], rfl, ?_⟩
  intro c hc
  simp only [get_corporate_components, List.mem_cons, List.not_mem_nil,
    or_false] at hc
  rcases hc with rfl | rfl | rfl | rfl <;> rfl

theorem hybrid_components_ok (p : PyDict) :
    components_ok (get_hybrid_components p) := by
  refine ⟨by simp [get_hybrid_components], rfl, ?_⟩
  intro c hc
  simp only [get_hybrid_components, List.mem_cons, List.not_mem_nil,
    or_false] at hc
  rcases hc with rfl | rfl | rfl | rfl <;> rfl

theorem fallback_creative_components_ok (p : PyDict) :
    components_ok (get_fallback_components_for_category "creative" p) := by
  refine ⟨by simp [get_fallback_components_for_category], ?_, ?_⟩
  · rfl
  · intro c hc
    simp only [get_fallback_components_for_category, List.mem_cons,
      List.not_mem_nil, or_false, if_true, reduceIte] at hc
    rcases hc with rfl | rfl | rfl | rfl <;> rfl

/-- C6: for every candidate profile, `_select_components` returns a
non-empty component list whose `order` values are exactly `0..n-1` with
no gaps or duplicates and whose entries all carry their per-type required
props; the same holds for `get_fallback_components_for_category` at every
category string (the four supported categories included). -/
theorem component_selection_invariants (profile : PyDict) (category : String) :
    components_ok (select_components profile)
    ∧ components_ok (get_fallback_components_for_category category profile) := by
  constructor
  · simp only [select_components]
    split
    · exact creative_components_ok profile
    · split
      · exact technical_components_ok profile
      · split
        · exact corporate_components_ok profile
        · exact hybrid_components_ok profile
  · simp only [get_fallback_components_for_category]
    split
    · refine ⟨by simp, rfl, ?_⟩
      intro c hc
      simp only [List.mem_cons, List.not_mem_nil, or_false] at hc
      rcases hc with rfl | rfl | rfl | rfl <;> rfl
    · split
      · refine ⟨by simp, rfl, ?_⟩
        intro c hc
        simp only [List.mem_cons, List.not_mem_nil, or_false] at hc
        rcases hc with rfl | rfl | rfl | rfl <;> rfl
      · refine ⟨by simp, rfl, ?_⟩
        intro c hc
        simp only [List.mem_cons, List.not_mem_nil, or_false] at hc
        rcases hc with rfl | rfl | rfl | rfl <;> rfl

/-! ## Rate limiter theorems -/

theorem updateFn_same {β : Type} (f : String → β) (k : String) (v : β) :
    updateFn f k v k = v := by
  simp [updateFn]

theorem updateFn_ne {β : Type} (f : String → β) (k x : String) (v : β)
    (h : x ≠ k) : updateFn f k v x = f x := by
  simp [updateFn, h]

theorem check_main_frame (cfg : RateLimiterConfig) (st : RateLimiterState)
    (identifier : String) (now : ℚ) :
    ((check_main cfg st identifier now).1.allowed = false →
      ((check_main cfg st identifier now).2.requests identifier).Sublist
        (st.requests identifier))
    ∧ ((check_main cfg st identifier now).1.allowed = true →
      (check_main cfg st identifier now).2.requests identifier
        = (st.requests identifier).filter
            (fun ts => decide (now - (cfg.window_seconds : ℚ) < ts)) ++ [now]) := by
  simp only [check_main]
  split
  · refine ⟨fun _ => ?_, fun h => by simp at h⟩
    simp only [updateFn_same]
    exact List.filter_sublist _
  · split
    · refine ⟨fun _ => ?_, fun h => by simp at h⟩
      simp only [updateFn_same]
      exact List.filter_sublist _
    · refine ⟨fun h => by simp at h, fun _ => ?_⟩
      simp only [updateFn_same]

/-- C10: `RateLimiter.check` never records a timestamp on a denied
request — the state after a denial holds a sublist (the purge) of the
identifier's previous timestamps — and on an allowed request the new
timestamp list is exactly the purged list with `now` appended: a
timestamp is recorded exactly when the check allows. -/
theorem rate_limiter_frame (cfg : RateLimiterConfig) (st : RateLimiterState)
    (identifier : String) (now : ℚ) :
    ((rate_limiter_check cfg st identifier now).1.allowed = false →
      ((rate_limiter_check cfg st identifier now).2.requests identifier).Sublist
        (st.requests identifier))
    ∧ ((rate_limiter_check cfg st identifier now).1.allowed = true →
      (rate_limiter_check cfg st identifier now).2.requests identifier
        = (st.requests identifier).filter
            (fun ts => decide (now - (cfg.window_seconds : ℚ) < ts)) ++ [now]) := by
  rw [rate_limiter_check]
  cases hb : st.blocked_until identifier with
  | none => exact check_main_frame cfg st identifier now
  | some b =>
    by_cases hnb : now < b
    · simp only [hnb, if_true, if_pos hnb]
      exact ⟨fun _ => List.Sublist.refl _, fun h => by simp at h⟩
    · simp only [if_neg hnb]
      exact check_main_frame cfg
        { st with blocked_until := updateFn st.blocked_until identifier Option.none }
        identifier now

/-- Witness for `rate_limiter_frame`: a fresh limiter allows the first
check at time 0 and records exactly that timestamp. -/
theorem rate_limiter_frame_witness :
    (rate_limiter_check service_rate_limiter_config initialRateLimiterState
      "w" 0).2.requests "w"
      = (initialRateLimiterState.requests "w").filter
          (fun ts => decide ((0 : ℚ)
            - (service_rate_limiter_config.window_seconds : ℚ) < ts)) ++ [0] := by
  exact (rate_limiter_frame service_rate_limiter_config initialRateLimiterState
    "w" 0).2 (by norm_num [rate_limiter_check, check_main,
      service_rate_limiter_config, initialRateLimiterState])

/-- C2 (amended): a check that finds at least `burst_limit` timestamps
inside the trailing burst window (and no active temporary block) is
denied with `retry_after = burst_window_seconds` and installs a temporary
block until `now + burst_window_seconds`, even when the main-window count
is still below `max_requests`; every further check while that block is
active is denied. (The block is installed by this over-limit check, not
by the burst-filling requests themselves: see the counterexample.) -/
theorem burst_rule (cfg : RateLimiterConfig) (st : RateLimiterState)
    (identifier : String) (now : ℚ)
    (hnb : ∀ b, st.blocked_until identifier = some b → b ≤ now)
    (hburst : cfg.burst_limit ≤
      (((st.requests identifier).filter
          (fun ts => decide (now - (cfg.window_seconds : ℚ) < ts))).filter
        (fun ts => decide (now - (cfg.burst_window_seconds : ℚ) < ts))).length)
    (hmain : ((st.requests identifier).filter
        (fun ts => decide (now - (cfg.window_seconds : ℚ) < ts))).length
      < cfg.max_requests) :
    (rate_limiter_check cfg st identifier now).1.allowed = false
    ∧ (rate_limiter_check cfg st identifier now).1.retry_after_seconds
        = (cfg.burst_window_seconds : Int)
    ∧ (rate_limiter_check cfg st identifier now).2.blocked_until identifier
        = some (now + (cfg.burst_window_seconds : ℚ))
    ∧ ∀ later, now ≤ later → later < now + (cfg.burst_window_seconds : ℚ) →
        (rate_limiter_check cfg (rate_limiter_check cfg st identifier now).2
          identifier later).1.allowed = false := by
  have hcm : ∀ st' : RateLimiterState,
      st'.requests identifier = st.requests identifier →
      (check_main cfg st' identifier now).1.allowed = false
      ∧ (check_main cfg st' identifier now).1.retry_after_seconds
          = (cfg.burst_window_seconds : Int)
      ∧ (check_main cfg st' identifier now).2.blocked_until identifier
          = some (now + (cfg.burst_window_seconds : ℚ)) := by
    intro st' hreq
    simp only [check_main, hreq]
    rw [if_pos hburst]
    exact ⟨rfl, rfl, updateFn_same _ _ _⟩
  have hst0 : ∃ st0 : RateLimiterState,
      rate_limiter_check cfg st identifier now = check_main cfg st0 identifier now
      ∧ st0.requests identifier = st.requests identifier := by
    rw [rate_limiter_check]
    cases hb : st.blocked_until identifier with
    | none => exact ⟨st, rfl, rfl⟩
    | some b =>
      have hlt : ¬ now < b := not_lt_of_le (hnb b hb)
      refine ⟨{ st with blocked_until := updateFn st.blocked_until identifier Option.none },
        ?_, rfl⟩
      simp only [if_neg hlt]
  obtain ⟨st0, heq, hreq⟩ := hst0
  obtain ⟨h1, h2, h3⟩ := hcm st0 hreq
  rw [heq]
  refine ⟨h1, h2, h3, ?_⟩
  intro later hl1 hl2
  rw [rate_limiter_check]
  simp only [h3]
  rw [if_pos hl2]

/-- Witness for `burst_rule`: with 5 recorded timestamps in the last 10
seconds, the next check (at time 5) is denied. -/
theorem burst_rule_witness :
    (rate_limiter_check service_rate_limiter_config burst_test_state
      "c" 5).1.allowed = false := by
  exact (burst_rule service_rate_limiter_config burst_test_state "c" 5
    (fun b h => Option.noConfusion h)
    (by norm_num [burst_test_state, service_rate_limiter_config])
    (by norm_num [burst_test_state, service_rate_limiter_config])).1

/-- C2 counterexample: five checks for the same identifier at times
0..4 — a sequence of 5 calls within 10 seconds, under the configured
`burst_limit = 5`, `burst_window = 10 s` — are all allowed, leave **no**
temporary block in the block map, and a subsequent check at time 13
(9 seconds after the fifth call, i.e. within `burst_window` of it) is
**allowed**: the five calls do not themselves trigger a block, and
subsequent checks are not denied for `burst_window` seconds. -/
theorem burst_block_counterexample :
    (run_rate_checks service_rate_limiter_config initialRateLimiterState
      "client" [0, 1, 2, 3, 4]).1 = [true, true, true, true, true]
    ∧ (run_rate_checks service_rate_limiter_config initialRateLimiterState
        "client" [0, 1, 2, 3, 4]).2.blocked_until "client" = Option.none
    ∧ (rate_limiter_check service_rate_limiter_config
        (run_rate_checks service_rate_limiter_config initialRateLimiterState
          "client" [0, 1, 2, 3, 4]).2 "client" 13).1.allowed = true := by
  norm_num [run_rate_checks, rate_limiter_check, check_main, updateFn,
    service_rate_limiter_config, initialRateLimiterState]

/-! ## Filename sanitization theorems -/

theorem hasDotDot_cons_false {a : Char} {l : List Char}
    (h : hasDotDot (a :: l) = false) : hasDotDot l = false := by
  cases l with
  | nil => rfl
  | cons b t =>
    rw [hasDotDot] at h
    exact (Bool.or_eq_false_iff.mp h).2

theorem stripDotDot_head {l : List Char}
    (h : (stripDotDot l).head? = some '.') : l.head? = some '.' := by
  induction l using stripDotDot.induct with
  | case1 => simp [stripDotDot] at h
  | case2 a => simpa [stripDotDot] using h
  | case3 a b rest hab ih =>
    simp [hab.1]
  | case4 a b rest hab ih =>
    rw [stripDotDot, if_neg hab] at h
    simp only [List.head?] at h ⊢
    exact h

theorem stripDotDot_no_dotdot (l : List Char) :
    hasDotDot (stripDotDot l) = false := by
  induction l using stripDotDot.induct with
  | case1 => rfl
  | case2 a => rfl
  | case3 a b rest hab ih =>
    rw [stripDotDot, if_pos hab]
    exact ih
  | case4 a b rest hab ih =>
    rw [stripDotDot, if_neg hab]
    cases hs : stripDotDot (b :: rest) with
    | nil => rfl
    | cons c t =>
      rw [hasDotDot]
      have hc : (c == '.') = true → (b :: rest).head? = some '.' := by
        intro hcd
        apply stripDotDot_head
        rw [hs]
        simp only [List.head?]
        rw [eq_of_beq hcd]
      rw [hs] at ih
      by_cases hadot : a = '.'
      · have hbdot : ¬ b = '.' := fun hb => hab ⟨hadot, hb⟩
        have hcfalse : (c == '.') = false := by
          by_contra hne
          have := hc (by revert hne; cases (c == '.') <;> simp)
          simp only [List.head?, Option.some.injEq] at this
          exact hbdot this
        simp [hadot, hcfalse, ih]
      · have haf : (a == '.') = false := by
          revert hadot
          cases hq : (a == '.')
          · intro _; rfl
          · intro hnd; exact absurd (eq_of_beq hq) hnd
        simp [haf, ih]

theorem mem_lastPart {sep c : Char} {l : List Char}
    (h : c ∈ lastPart sep l) : c ∈ l := by
  induction l with
  | nil => simpa [lastPart] using h
  | cons a rest ih =>
    rw [lastPart] at h
    by_cases hc : rest.contains sep
    · rw [if_pos hc] at h
      exact List.mem_cons_of_mem a (ih h)
    · rw [if_neg hc] at h
      by_cases ha : a = sep
      · rw [if_pos ha] at h
        exact List.mem_cons_of_mem a h
      · rwa [if_neg ha] at h

theorem lastPart_not_mem (sep : Char) (l : List Char) :
    sep ∉ lastPart sep l := by
  induction l with
  | nil => simp [lastPart]
  | cons a rest ih =>
    rw [lastPart]
    by_cases hc : rest.contains sep
    · rwa [if_pos hc]
    · rw [if_neg hc]
      have hrest : sep ∉ rest := by
        intro hmem
        exact hc (List.elem_eq_true_of_mem hmem)
      by_cases ha : a = sep
      · rwa [if_pos ha]
      · rw [if_neg ha]
        intro hmem
        rcases List.mem_cons.mp hmem with heq | hm
        · exact ha heq.symm
        · exact hrest hm

theorem hasDotDot_lastPart (sep : Char) (l : List Char)
    (h : hasDotDot l = false) : hasDotDot (lastPart sep l) = false := by
  induction l with
  | nil => simpa [lastPart] using h
  | cons a rest ih =>
    rw [lastPart]
    by_cases hc : rest.contains sep
    · rw [if_pos hc]
      exact ih (hasDotDot_cons_false h)
    · rw [if_neg hc]
      by_cases ha : a = sep
      · rw [if_pos ha]
        exact hasDotDot_cons_false h
      · rwa [if_neg ha]

theorem replace_unsafe_char_dot {c : Char}
    (h : replace_unsafe_char c = '.') : c = '.' := by
  rw [replace_unsafe_char] at h
  split at h
  · exact absurd h (by decide)
  · exact h

theorem replace_unsafe_char_ne_slash (c : Char) :
    replace_unsafe_char c ≠ '/' ∧ replace_unsafe_char c ≠ '\\' := by
  rw [replace_unsafe_char]
  split
  · exact ⟨by decide, by decide⟩
  · next hunsafe =>
    constructor
    · intro hc
      apply hunsafe
      rw [hc]
      rfl
    · intro hc
      apply hunsafe
      rw [hc]
      rfl

theorem hasDotDot_cons_eq (a : Char) (l : List Char) :
    hasDotDot (a :: l) = ((a == '.') && headIsDot l || hasDotDot l) := by
  cases l with
  | nil => simp [hasDotDot, headIsDot]
  | cons b t => rfl

theorem headIsDot_map {l : List Char}
    (h : headIsDot (l.map replace_unsafe_char) = true) : headIsDot l = true := by
  cases l with
  | nil => simp [headIsDot] at h
  | cons c t =>
    simp only [List.map, headIsDot] at h ⊢
    have := replace_unsafe_char_dot (eq_of_beq h)
    rw [this]
    rfl

theorem hasDotDot_map {l : List Char} (h : hasDotDot l = false) :
    hasDotDot (l.map replace_unsafe_char) = false := by
  induction l with
  | nil => rfl
  | cons a t ih =>
    rw [List.map, hasDotDot_cons_eq]
    rw [hasDotDot_cons_eq] at h
    obtain ⟨h1, h2⟩ := Bool.or_eq_false_iff.mp h
    rw [ih h2]
    rw [Bool.or_false]
    by_cases hfa : (replace_unsafe_char a == '.') = true
    · have ha : a = '.' := replace_unsafe_char_dot (eq_of_beq hfa)
      by_cases hhd : headIsDot (t.map replace_unsafe_char) = true
      · have := headIsDot_map hhd
        rw [ha] at h1
        simp [this] at h1
      · simp only [Bool.not_eq_true] at hhd
        rw [hhd, Bool.and_false]
    · simp only [Bool.not_eq_true] at hfa
      rw [hfa, Bool.false_and]

theorem sanitize_core_props (fn : List Char) :
    hasDotDot (sanitize_core fn) = false
    ∧ '/' ∉ sanitize_core fn ∧ '\\' ∉ sanitize_core fn := by
  refine ⟨?_, ?_, ?_⟩
  · exact hasDotDot_map
      (hasDotDot_lastPart _ _ (hasDotDot_lastPart _ _ (stripDotDot_no_dotdot _)))
  · intro hm
    rw [sanitize_core] at hm
    obtain ⟨c, _, hfc⟩ := List.mem_map.mp hm
    exact (replace_unsafe_char_ne_slash c).1 hfc
  · intro hm
    rw [sanitize_core] at hm
    obtain ⟨c, _, hfc⟩ := List.mem_map.mp hm
    exact (replace_unsafe_char_ne_slash c).2 hfc

theorem sanitize_filename_is_safe_iff (fn : List Char) :
    (sanitize_filename fn).is_safe = false ↔
      (fn = [] ∨ MAX_FILENAME_LENGTH < (pyStrip fn).length
        ∨ sanitize_core fn = [] ∨ sanitize_core fn = ['.']) := by
  by_cases h0 : fn = []
  · simp [sanitize_filename, h0]
  by_cases h1 : MAX_FILENAME_LENGTH < (pyStrip fn).length
  · simp [sanitize_filename, h0, h1]
  by_cases h2 : sanitize_core fn = [] ∨ sanitize_core fn = ['.']
  · have h2' := h2
    rw [sanitize_core] at h2'
    simp only [sanitize_filename, if_neg h0, if_neg h1, if_pos h2']
    simp [h0, h1, h2]
  · have h2' := h2
    rw [sanitize_core] at h2'
    simp only [sanitize_filename, if_neg h0, if_neg h1, if_neg h2']
    constructor
    · intro hfalse
      split at hfalse <;> simp at hfalse
    · intro hd
      rcases hd with h | h | h | h
      · exact absurd h h0
      · exact absurd h h1
      · exact absurd (Or.inl h) h2
      · exact absurd (Or.inr h) h2

theorem sanitize_core_eq (fn : List Char) :
    (lastPart '\\' (lastPart '/' (stripDotDot (pyStrip fn)))).map
      replace_unsafe_char = sanitize_core fn := rfl

theorem sanitize_filename_safe_props (fn : List Char)
    (h : (sanitize_filename fn).is_safe = true) :
    '/' ∉ (sanitize_filename fn).sanitized_value
    ∧ '\\' ∉ (sanitize_filename fn).sanitized_value
    ∧ hasDotDot (sanitize_filename fn).sanitized_value = false
    ∧ (sanitize_filename fn).sanitized_value.head? ≠ some '.' := by
  have hnot : ¬ ((sanitize_filename fn).is_safe = false) := by simp [h]
  rw [sanitize_filename_is_safe_iff] at hnot
  push_neg at hnot
  obtain ⟨h0, h1, h2, h3⟩ := hnot
  have h2' : ¬ ((lastPart '\\' (lastPart '/' (stripDotDot (pyStrip fn)))).map
      replace_unsafe_char = []
      ∨ (lastPart '\\' (lastPart '/' (stripDotDot (pyStrip fn)))).map
        replace_unsafe_char = ['.']) := by
    rw [sanitize_core_eq]
    tauto
  obtain ⟨hdd, hsl, hbs⟩ := sanitize_core_props fn
  simp only [sanitize_filename, if_neg h0, if_neg (not_lt.mpr h1), if_neg h2']
  simp only [sanitize_core_eq] at *
  split
  · next rest heq =>
    rw [heq] at hdd hsl hbs
    refine ⟨?_, ?_, ?_, by simp⟩
    · intro hm
      rcases List.mem_cons.mp hm with hq | hm2
      · exact absurd hq.symm (by decide)
      · exact hsl (List.mem_cons_of_mem _ hm2)
    · intro hm
      rcases List.mem_cons.mp hm with hq | hm2
      · exact absurd hq.symm (by decide)
      · exact hbs (List.mem_cons_of_mem _ hm2)
    · rw [hasDotDot_cons_eq]
      rw [hasDotDot_cons_false hdd]
      simp
  · next hne =>
    refine ⟨hsl, hbs, hdd, ?_⟩
    intro hhead
    have hh : (sanitize_core fn).head? = some '.' := hhead
    cases hsc : sanitize_core fn with
    | nil => rw [hsc] at hh; simp at hh
    | cons c rest =>
      rw [hsc] at hh
      simp only [List.head?, Option.some.injEq] at hh
      subst hh
      exact hne rest hsc

theorem sanitize_passwd_concrete :
    (sanitize_filename ("../../etc/passwd".toList)).is_safe = true
    ∧ (sanitize_filename ("../../etc/passwd".toList)).sanitized_value
        = "passwd".toList
    ∧ (sanitize_filename ("../../etc/passwd".toList)).warnings ≠ [] := by
  decide

/-- C8: every filename accepted by `sanitize_filename` is returned with
no `/` or `\\` path separator, no ".." substring (no two adjacent dots)
and no leading dot; `sanitize_filename("../../etc/passwd")` succeeds with
value `"passwd"` and a recorded warning; and the operation fails exactly
when the input is empty, the stripped input exceeds the maximum length,
or the sanitized core collapses to the empty string or `"."`. -/
theorem sanitize_filename_spec (fn : List Char) :
    ((sanitize_filename fn).is_safe = true →
      '/' ∉ (sanitize_filename fn).sanitized_value
      ∧ '\\' ∉ (sanitize_filename fn).sanitized_value
      ∧ hasDotDot (sanitize_filename fn).sanitized_value = false
      ∧ (sanitize_filename fn).sanitized_value.head? ≠ some '.')
    ∧ ((sanitize_filename ("../../etc/passwd".toList)).is_safe = true
      ∧ (sanitize_filename ("../../etc/passwd".toList)).sanitized_value
          = "passwd".toList
      ∧ (sanitize_filename ("../../etc/passwd".toList)).warnings ≠ [])
    ∧ ((sanitize_filename fn).is_safe = false ↔
        (fn = [] ∨ MAX_FILENAME_LENGTH < (pyStrip fn).length
          ∨ sanitize_core fn = [] ∨ sanitize_core fn = ['.'])) :=
  ⟨sanitize_filename_safe_props fn, sanitize_passwd_concrete,
    sanitize_filename_is_safe_iff fn⟩

/-- Witness for `sanitize_filename_spec`: its safe-case conclusion holds
at the concrete input `"../../etc/passwd"`. -/
theorem sanitize_filename_spec_witness :
    '/' ∉ (sanitize_filename ("../../etc/passwd".toList)).sanitized_value
    ∧ '\\' ∉ (sanitize_filename ("../../etc/passwd".toList)).sanitized_value
    ∧ hasDotDot (sanitize_filename ("../../etc/passwd".toList)).sanitized_value
        = false
    ∧ (sanitize_filename ("../../etc/passwd".toList)).sanitized_value.head?
        ≠ some '.' :=
  (sanitize_filename_spec ("../../etc/passwd".toList)).1 (by decide)

/-! ## Content validation theorems -/

section C9
variable (hashFn : List Nat → String) (content : List Nat)
variable (filename : List Char) (ct : Option String) (ident : String)

/-- `validate_content` on content passing the size and extension checks:
the not-duplicate branch returns a valid result and records the
submission; the duplicate branch returns `DUPLICATE_SUBMISSION`. -/
theorem validate_content_branches
    (hne : content ≠ [])
    (hmin : MIN_FILE_SIZE ≤ content.length)
    (hmax : content.length ≤ MAX_FILE_SIZE)
    (hfn : (sanitize_filename filename).is_safe = true)
    (hext : ALLOWED_EXTENSIONS.contains
      (get_extension (sanitize_filename filename).sanitized_value) = true)
    (s : DuplicateHistory) (t : ℚ) :
    ((check_duplicate s (hashFn content) ident t).1 = false →
      (validate_content hashFn s content filename ct (some ident) t).1.is_valid = true
      ∧ (validate_content hashFn s content filename ct (some ident) t).2
          = record_submission (check_duplicate s (hashFn content) ident t).2
              (hashFn content) ident t)
    ∧ ((check_duplicate s (hashFn content) ident t).1 = true →
      (validate_content hashFn s content filename ct (some ident) t).1.error
          = SanitizationError.duplicate_submission
      ∧ (validate_content hashFn s content filename ct (some ident) t).1.is_valid
          = false) := by
  simp only [validate_content, if_neg hne, if_neg (not_lt.mpr hmin),
    if_neg (not_lt.mpr hmax)]
  rw [if_neg (by simp [hfn] : ¬ ((sanitize_filename filename).is_safe = false))]
  rw [if_neg (by rw [hext]; simp : ¬ ((ALLOWED_EXTENSIONS.contains
    (get_extension (sanitize_filename filename).sanitized_value)) = false))]
  constructor
  · intro hd
    rw [if_neg (by simp [hd])]
    exact ⟨rfl, rfl⟩
  · intro hd
    rw [if_pos (by simp [hd])]
    exact ⟨rfl, rfl⟩

/-- C9: for content passing the size/extension checks and an identifier,
a first `validate_content` call (with no fresh prior submission of the
same fingerprint) is valid and records the fingerprint; a second call
with identical bytes and the same identifier strictly within the
duplicate window is invalid with `DUPLICATE_SUBMISSION`; a call after
the window has fully elapsed is valid again. -/
theorem duplicate_detection_spec
    (st : DuplicateHistory) (t1 t2 t3 : ℚ)
    (hne : content ≠ [])
    (hmin : MIN_FILE_SIZE ≤ content.length)
    (hmax : content.length ≤ MAX_FILE_SIZE)
    (hfn : (sanitize_filename filename).is_safe = true)
    (hext : ALLOWED_EXTENSIONS.contains
      (get_extension (sanitize_filename filename).sanitized_value) = true)
    (hnodup : st ident (hashFn content) = Option.none
      ∨ ∃ ts, st ident (hashFn content) = some ts ∧ ts ≤ t1 - hash_window_seconds)
    (h12 : t2 - t1 < hash_window_seconds)
    (h13 : hash_window_seconds ≤ t3 - t1) :
    (validate_content hashFn st content filename ct (some ident) t1).1.is_valid = true
    ∧ (validate_content hashFn
        (validate_content hashFn st content filename ct (some ident) t1).2
        content filename ct (some ident) t2).1.error
          = SanitizationError.duplicate_submission
    ∧ (validate_content hashFn
        (validate_content hashFn st content filename ct (some ident) t1).2
        content filename ct (some ident) t2).1.is_valid = false
    ∧ (validate_content hashFn
        (validate_content hashFn st content filename ct (some ident) t1).2
        content filename ct (some ident) t3).1.is_valid = true := by
  have hbr := validate_content_branches hashFn content filename ct ident
    hne hmin hmax hfn hext
  have hcd1 : (check_duplicate st (hashFn content) ident t1).1 = false := by
    simp only [check_duplicate, updateFn_same]
    rcases hnodup with hn | ⟨ts, hts, hle⟩
    · rw [hn]
      rfl
    · rw [hts]
      show (if t1 - hash_window_seconds < ts then some ts else Option.none).isSome
        = false
      rw [if_neg (not_lt.mpr hle)]
      rfl
  obtain ⟨hv1, hst1eq⟩ := (hbr st t1).1 hcd1
  have hst1 : (validate_content hashFn st content filename ct (some ident) t1).2
      ident (hashFn content) = some t1 := by
    rw [hst1eq]
    simp [record_submission, updateFn_same]
  have hcd2 : (check_duplicate
      (validate_content hashFn st content filename ct (some ident) t1).2
      (hashFn content) ident t2).1 = true := by
    simp only [check_duplicate, updateFn_same]
    rw [hst1]
    show (if t2 - hash_window_seconds < t1 then some t1 else Option.none).isSome
      = true
    rw [if_pos (by linarith)]
    rfl
  have hcd3 : (check_duplicate
      (validate_content hashFn st content filename ct (some ident) t1).2
      (hashFn content) ident t3).1 = false := by
    simp only [check_duplicate, updateFn_same]
    rw [hst1]
    show (if t3 - hash_window_seconds < t1 then some t1 else Option.none).isSome
      = false
    rw [if_neg (by linarith)]
    rfl
  obtain ⟨he2, hv2⟩ := (hbr _ t2).2 hcd2
  obtain ⟨hv3, _⟩ := (hbr _ t3).1 hcd3
  exact ⟨hv1, he2, hv2, hv3⟩

/-- Witness for `duplicate_detection_spec`: 100 identical bytes from
identifier "ip" at times 0 (valid), 10 (duplicate) and 300 (valid). -/
theorem duplicate_detection_spec_witness :
    (validate_content test_hash emptyDuplicateHistory (List.replicate 100 1)
      ("a.pdf".toList) Option.none (some "ip") 0).1.is_valid = true
    ∧ (validate_content test_hash
        (validate_content test_hash emptyDuplicateHistory (List.replicate 100 1)
          ("a.pdf".toList) Option.none (some "ip") 0).2
        (List.replicate 100 1) ("a.pdf".toList) Option.none (some "ip")
        10).1.error = SanitizationError.duplicate_submission
    ∧ (validate_content test_hash
        (validate_content test_hash emptyDuplicateHistory (List.replicate 100 1)
          ("a.pdf".toList) Option.none (some "ip") 0).2
        (List.replicate 100 1) ("a.pdf".toList) Option.none (some "ip")
        300).1.is_valid = true := by
  have h := duplicate_detection_spec test_hash (List.replicate 100 1)
    ("a.pdf".toList) Option.none "ip" emptyDuplicateHistory 0 10 300
    (by decide) (by decide) (by decide) (by decide) (by decide)
    (Or.inl rfl)
    (by norm_num [hash_window_seconds])
    (by norm_num [hash_window_seconds])
  exact ⟨h.1, h.2.1, h.2.2.2⟩

end C9

/-! ## Pipeline theorems -/

theorem run_ocr_with_retry_raises (ocrOp : Nat → Except PyError OCRResult)
    (u : Nat → ℚ) :
    run_ocr_with_retry ocrOp u
      = Except.error
          ⟨.typeError,
           "OCRResult init got an unexpected keyword argument text_blocks"⟩ := by
  rw [run_ocr_with_retry]
  rw [if_neg (by decide)]

/-- C1 (code bug): for every input that passes rate limiting, filename
sanitization and file validation, and OCR/analysis collaborators that
raise on every invocation, `process` does NOT return the claimed
success-with-fallback result: `_run_ocr_with_retry` constructs its
fallback `OCRResult` with the keyword `text_blocks`, which is not a field
of the `OCRResult` dataclass (the field is named `blocks`), so the
construction raises `TypeError` before any OCR attempt; the outer
handler converts it into a failure result carrying the `TypeError`
message. The designed fallback cascade (hybrid default profile, four
components) is unreachable. -/
theorem pipeline_fallback_cascade_bug
    (imageOk : List Nat → Bool) (ocrOp : Nat → Except PyError OCRResult)
    (u : Nat → ℚ) (analysisOp : String → PyDict → Except PyError PyDict)
    (st : RateLimiterState) (content : List Nat) (filename : List Char)
    (ct : Option String) (options : PyDict) (ident : String) (now : ℚ)
    (hrl : (rate_limiter_check service_rate_limiter_config st ident
      now).1.allowed = true)
    (hfn : (sanitize_filename filename).is_safe = true)
    (hval : (validate_file imageOk content
      (sanitize_filename filename).sanitized_value ct).is_valid = true)
    (hocr : ∀ n, ∃ e, ocrOp n = Except.error e)
    (han : ∀ t o, ∃ e, analysisOp t o = Except.error e) :
    (process imageOk ocrOp u analysisOp st content filename ct options
      (some ident) now).1.success = false
    ∧ (process imageOk ocrOp u analysisOp st content filename ct options
        (some ident) now).1.error_message
      = "OCRResult init got an unexpected keyword argument text_blocks" := by
  have harl : process_after_rate_limit imageOk ocrOp u analysisOp content
      filename ct options
      = { success := false,
          error_message :=
            "OCRResult init got an unexpected keyword argument text_blocks" } := by
    simp only [process_after_rate_limit]
    rw [if_neg (by simp [hfn])]
    rw [if_neg (by simp [hval])]
    rw [run_ocr_with_retry_raises]
  simp only [process]
  rw [if_neg (by simp [hrl])]
  rw [harl]
  exact ⟨rfl, rfl⟩

set_option maxRecDepth 4096 in
/-- Witness for `pipeline_fallback_cascade_bug`: a valid PDF upload named
`resume.pdf` from a fresh client, with both collaborators failing. -/
theorem pipeline_fallback_cascade_bug_witness :
    (process (fun _ => true) failing_ocr_op (fun _ => 0) failing_analysis_op
      initialRateLimiterState pdf_test_content ("resume.pdf".toList)
      Option.none [] (some "ip") 0).1.success = false
    ∧ (process (fun _ => true) failing_ocr_op (fun _ => 0) failing_analysis_op
        initialRateLimiterState pdf_test_content ("resume.pdf".toList)
        Option.none [] (some "ip") 0).1.error_message
      = "OCRResult init got an unexpected keyword argument text_blocks" := by
  exact pipeline_fallback_cascade_bug (fun _ => true) failing_ocr_op
    (fun _ => 0) failing_analysis_op initialRateLimiterState pdf_test_content
    ("resume.pdf".toList) Option.none [] "ip" 0
    (by norm_num [rate_limiter_check, check_main, service_rate_limiter_config,
      initialRateLimiterState])
    (by decide)
    (by decide)
    (fun n => ⟨_, rfl⟩)
    (fun t o => ⟨_, rfl⟩)
